import Mathlib

/-!
Verification of the GateKeeper backend (backend/app/models.py, probe.py,
utils.py, main.py, rules.py) against its natural-language specification.

The Python code is shallowly embedded: pure computations become Lean
functions; interactions with the outside world (sockets, HTTP requests,
the file system, wall-clock time) are passed in explicitly as event or
oracle values, so each source function becomes a total function of its
inputs plus the observed environment behaviour.  The standard-library
regex engine used by rules.py is modelled as an abstract compile/search
oracle; the claims about the rule engine are proved for every such
oracle, and a small concrete instance (literal-substring search plus one
concretely invalid pattern) is used to evaluate witnesses.
-/

/-! ## models.py — enumerations and record shapes -/

/-- Severity enumeration from models.py (str-backed Enum). -/
inductive Severity
  | info
  | warning
  | issue
deriving DecidableEq, Repr

/-- Underlying string of a Severity member, as in Python `sev.value`. -/
def Severity.value : Severity → String
  | Severity.info => ("info")
  | Severity.warning => ("warning")
  | Severity.issue => ("issue")

/-- Protocol enumeration from models.py (str-backed Enum). -/
inductive Protocol
  | tcp
  | http
  | https
deriving DecidableEq, Repr

/-- Underlying string of a Protocol member, as in Python `proto.value`. -/
def Protocol.value : Protocol → String
  | Protocol.tcp => ("tcp")
  | Protocol.http => ("http")
  | Protocol.https => ("https")

/-- RuleTarget enumeration from models.py (str-backed Enum). -/
inductive RuleTarget
  | headers
  | body
  | status
deriving DecidableEq, Repr

/-- Underlying string of a RuleTarget member, as in Python `target.value`. -/
def RuleTarget.value : RuleTarget → String
  | RuleTarget.headers => ("headers")
  | RuleTarget.body => ("body")
  | RuleTarget.status => ("status")

/-- PortCheck model from models.py.  The `ge=1, le=65535` bound on `port`
is a validation-time constraint, recorded separately where needed. -/
structure PortCheck where
  name : String
  port : Nat
  protocol : Protocol := Protocol.tcp
  severity : Severity
  advice : String
deriving DecidableEq, Repr

/-- ChecksConfig model from models.py. -/
structure ChecksConfig where
  checks : List PortCheck
deriving DecidableEq, Repr

/-- RegexRule model from models.py.  All six fields, `id` included, are
required (no defaults), so a validated rule always carries an id. -/
structure RegexRule where
  id : String
  description : String
  target : RuleTarget
  pattern : String
  severity : Severity
  advice : String
deriving DecidableEq, Repr

/-- RulesConfig model from models.py. -/
structure RulesConfig where
  rules : List RegexRule
deriving DecidableEq, Repr

/-! ## probe.py — result structs -/

/-- HTTPProbe dataclass from probe.py (all fields default to None). -/
structure HTTPProbe where
  status : Option Nat := none
  headers : Option String := none
  body_snippet : Option String := none
deriving DecidableEq, Repr

/-- One element of the `checks` list of the snapshot dict built by
`scan_once`: the CheckResult dataclass with its `http` sub-record kept as
an optional value (the dict flattening `asdict(r.http) if r.http else
None` is the identity under this typing).  `protocol` is the enum value
string stored by `CheckResult(protocol=chk.protocol.value)`. -/
structure SnapshotCheck where
  name : String
  port : Nat
  protocol : String
  tcp_connect : Option String := none
  http : Option HTTPProbe := none
  error : Option String := none
  duration_ms : Nat := 0
deriving DecidableEq, Repr

/-- The snapshot dict returned by `scan_once`. -/
structure Snapshot where
  target : String
  started_at : String
  duration_ms : Nat
  checks : List SnapshotCheck
deriving DecidableEq, Repr

/-- One finding dict appended by `apply_rules`. -/
structure Finding where
  rule_id : String
  check : String
  severity : String
  advice : String
  evidence : Option String
deriving DecidableEq, Repr

/-! ## probe.py — tcp_connect -/

/-- Outcome of the single `s.connect_ex((host, port))` call inside
`tcp_connect`: either it returns an errno-style integer, or it raises
`socket.timeout`, or it raises some other exception. -/
inductive ConnectEvent
  | result (rc : Int)
  | timeoutExc
  | otherExc
deriving DecidableEq, Repr

/-- State of the probe socket after `tcp_connect` finishes. -/
inductive SocketState
  | created
  | closed
deriving DecidableEq, Repr

/-- The try/except body of `tcp_connect`: rc == 0 maps to "open", any
other return code to "closed", a socket.timeout to "timeout", and any
other exception to "closed". -/
def tcpTryExcept : ConnectEvent → String
  | ConnectEvent.result rc => if rc = 0 then ("open") else ("closed")
  | ConnectEvent.timeoutExc => ("timeout")
  | ConnectEvent.otherExc => ("closed")

/-- `tcp_connect` from probe.py over the observed outcome of its single
connect attempt.  The second component records the socket state: the
`finally` block closes the socket on every path, so it is `closed`
whatever the event was. -/
def tcp_connect (ev : ConnectEvent) : String × SocketState :=
  (tcpTryExcept ev, SocketState.closed)

/-! ## probe.py — http_fetch -/

/-- Outcome of the single `requests.get` call inside `http_fetch`:
either a response arrives (with status, ordered headers, `resp.text`
when text decoding succeeds, and `resp.content` decoded with replacement
characters as fallback), or a RequestException is raised with the given
description. -/
inductive HttpEvent
  | response (status : Nat) (headers : List (String × String))
      (text : Option String) (content : String)
  | requestException (desc : String)
deriving DecidableEq, Repr

/-- `http_fetch` from probe.py over the observed outcome of its GET.
On a response: status, headers serialized as CRLF-joined key-value
lines, and a body snippet of at most 512 characters (from `resp.text`,
falling back to the replacement-decoded bytes).  On a RequestException:
no status, no headers, and the literal diagnostic body text. -/
def http_fetch (scheme host : String) (port : Nat) (ev : HttpEvent) : HTTPProbe :=
  match ev with
  | HttpEvent.response status headers text content =>
      let headers_str :=
        String.intercalate ("\x0d\x0a") (headers.map (fun kv => kv.1 ++ (": ") ++ kv.2))
      let body_snippet :=
        match text with
        | some t => String.mk (t.toList.take 512)
        | none => String.mk (content.toList.take 512)
      { status := some status, headers := some headers_str, body_snippet := some body_snippet }
  | HttpEvent.requestException desc =>
      { status := none, headers := none,
        body_snippet := some ((("(request error: ") ++ desc) ++ (")")) }

/-! ## probe.py — scan_once -/

/-- Outcome of the guarded call `item.http = http_fetch(...)` inside
`scan_once`: either `http_fetch` runs to completion on some observed
HttpEvent, or the call itself raises (captured by the surrounding
try/except into the result's error field). -/
inductive HttpCallOutcome
  | returns (ev : HttpEvent)
  | raises (desc : String)
deriving DecidableEq, Repr

/-- Environment behaviour observed while probing one check: the outcome
of its tcp connect attempt, the outcome of its http fetch call (used
only for http/https checks), and the measured per-check duration. -/
structure CheckEnv where
  tcpEv : ConnectEvent
  httpOutcome : HttpCallOutcome
  durMs : Nat

/-- The per-check loop body of `scan_once`: builds a CheckResult for one
PortCheck.  tcp protocol runs only the tcp connect; http/https run the
tcp connect then the guarded http fetch; the final branch (unreachable
for the closed Protocol enumeration) records an unknown-protocol error
and performs no probe. -/
def runCheck (target : String) (chk : PortCheck) (env : CheckEnv) : SnapshotCheck :=
  let item0 : SnapshotCheck :=
    { name := chk.name, port := chk.port, protocol := chk.protocol.value }
  let item1 : SnapshotCheck :=
    if chk.protocol = Protocol.tcp then
      { item0 with tcp_connect := some (tcp_connect env.tcpEv).1 }
    else if chk.protocol = Protocol.http ∨ chk.protocol = Protocol.https then
      let item2 := { item0 with tcp_connect := some (tcp_connect env.tcpEv).1 }
      match env.httpOutcome with
      | HttpCallOutcome.returns hev =>
          { item2 with http := some (http_fetch chk.protocol.value target chk.port hev) }
      | HttpCallOutcome.raises d =>
          { item2 with error := some (("http_fetch error: ") ++ d) }
    else
      { item0 with error := some (("unknown protocol: ") ++ chk.protocol.value) }
  { item1 with duration_ms := env.durMs }

/-- Environment observed by one `scan_once` invocation: the result of
`load_and_validate("checks.yaml", ChecksConfig)`, the result of
`resolve_target_ip()` (either may fail with an exception, modelled as
`Except.error`), per-check probe behaviour indexed by position, the ISO
timestamp taken at the start, and the measured total duration. -/
structure ScanEnv where
  checksCfg : Except String ChecksConfig
  targetIp : Except String String
  checkEnvs : Nat → CheckEnv
  startedAtIso : String
  totalMs : Nat

/-- `scan_once` from probe.py: load the checks config, resolve the
target, run every check in configured order, and assemble the snapshot
dict.  Config or gateway failures propagate; per-check results are
collected in order. -/
def scan_once (env : ScanEnv) : Except String Snapshot :=
  match env.checksCfg with
  | Except.error e => Except.error e
  | Except.ok cfg =>
      match env.targetIp with
      | Except.error e => Except.error e
      | Except.ok target =>
          Except.ok
            { target := target,
              started_at := env.startedAtIso ++ ("Z"),
              duration_ms := env.totalMs,
              checks := cfg.checks.enum.map
                (fun ic => runCheck target ic.2 (env.checkEnvs ic.1)) }

/-! ## utils.py — configuration loading -/

/-- A parsed YAML mapping, modelled as an association list (the values
of the mapping play no role in the verified claims). -/
abbrev YamlMap := List (String × String)

/-- Path resolution `CONFIG_DIR / rel_path` from utils.py. -/
def configPath (configDir rel : String) : String := (configDir ++ ("/")) ++ rel

/-- `load_yaml_raw` from utils.py over a file-system oracle.  `fs p =
none` means the path does not exist; `fs p = some none` means the file
exists and `yaml.safe_load` returns None (empty document); `fs p = some
(some m)` means it parses to the mapping `m`.  A missing file raises
FileNotFoundError with the resolved path in the message; an empty
document becomes the empty mapping via `safe_load(f) or` the empty dict. -/
def load_yaml_raw (fs : String → Option (Option YamlMap)) (configDir rel : String) :
    Except String (YamlMap × String) :=
  let path := configPath configDir rel
  match fs path with
  | none => Except.error (("Config not found: ") ++ path)
  | some data => Except.ok (data.getD [], path)

/-! ## main.py — CORS origin list -/

/-- `ALLOWED_ORIGINS` from main.py.  In the Python source the list holds
two adjacent string literals with no comma between them; Python's lexer
concatenates adjacent literals, so the list has a single element, the
two URLs joined with no separator.  The concatenation is kept explicit
here to mirror that lexical structure. -/
def ALLOWED_ORIGINS : List String :=
  [("http://localhost:5173") ++ ("http://127.0.0.1:5173")]

/-! ## rules.py — the rule engine -/

/-- A compiled regex, abstracted to what `apply_rules` uses of it: a
search over a blob returning the span (start, end) of the first match,
as character positions, when one exists. -/
structure CompiledRegex where
  search : String → Option (Nat × Nat)

/-- The regex library as seen by `apply_rules`: compilation of a pattern
string either fails with an error description (re.error) or yields a
compiled regex. -/
structure RegexEngine where
  compile : String → Except String CompiledRegex

/-- `_blob_for` from rules.py: extract the text a rule is evaluated
against.  `chk.get("http") or` the empty dict means an absent http
sub-record behaves as a probe with every field absent. -/
def _blob_for (chk : SnapshotCheck) (target : String) : Option String :=
  let http := chk.http.getD {}
  if target = ("headers") then http.headers
  else if target = ("status") then http.status.map (fun s => toString s)
  else if target = ("body") then http.body_snippet
  else none

/-- The inner loop body of `apply_rules` for one (check, rule) pair;
each `continue` becomes `none`.  The blob is extracted for the rule's
target value; a falsy (absent or empty) blob skips the rule; a pattern
that fails to compile yields the warning finding (`getattr(rule, ...)`
on the required `id` field is the field itself); a successful compile
searches the blob and, on a match, yields a finding whose evidence is
the matched span `blob[start:end]` truncated to its first 160
characters. -/
def findingForRule (E : RegexEngine) (chk : SnapshotCheck) (rule : RegexRule) :
    Option Finding :=
  match _blob_for chk rule.target.value with
  | none => none
  | some blob =>
      if blob = ("") then none
      else
        match E.compile rule.pattern with
        | Except.error e =>
            some { rule_id := rule.id, check := chk.name, severity := ("warning"),
                   advice := ("Invalid regex in rules.yaml: ") ++ e, evidence := none }
        | Except.ok rx =>
            match rx.search blob with
            | some sp =>
                some { rule_id := rule.id, check := chk.name,
                       severity := rule.severity.value, advice := rule.advice,
                       evidence :=
                         some (String.mk (((blob.toList.drop sp.1).take (sp.2 - sp.1)).take 160)) }
            | none => none

/-- `apply_rules` from rules.py: the nested loops over the snapshot's
checks (outer) and the configured rules (inner), appending each produced
finding to the accumulator. -/
def apply_rules (E : RegexEngine) (snapshot : Snapshot) (rules_cfg : RulesConfig) :
    List Finding :=
  snapshot.checks.foldl
    (fun findings chk =>
      rules_cfg.rules.foldl
        (fun findings rule =>
          match findingForRule E chk rule with
          | some f => findings ++ [f]
          | none => findings)
        findings)
    []

/-! ## A concrete regex-engine instance for evaluating witnesses

The claim theorems below are proved for every RegexEngine.  To evaluate
them on concrete inputs we instantiate the engine with a small faithful
model of Python's `re` on the fragment the witnesses use: patterns made
only of literal characters (no metacharacters), for which `re.search`
returns the leftmost occurrence of the pattern, and the single pattern
consisting of one opening parenthesis, which `re.compile` rejects with
the error below. -/

/-- Leftmost occurrence of the literal pattern in the blob, returned as
a (start, end) span of character positions — the behaviour of
`re.search` on a metacharacter-free pattern. -/
def litSearch (pat blob : String) : Option (Nat × Nat) :=
  let p := pat.toList
  let b := blob.toList
  ((List.range (b.length + 1)).find? (fun i => (b.drop i).take p.length == p)).map
    (fun i => (i, i + p.length))

/-- Model of `re.compile` on the fragment used by the witnesses: the
lone-parenthesis pattern fails with the re.error message it produces in
CPython; metacharacter-free patterns compile to literal search. -/
def pyCompile (pat : String) : Except String CompiledRegex :=
  if pat = ("(") then
    Except.error ("missing ), unterminated subpattern at position 0")
  else Except.ok { search := litSearch pat }

/-- The concrete regex engine used by witnesses and counterexamples. -/
def pyEngine : RegexEngine := { compile := pyCompile }

/-! ## Concrete fixtures for witnesses and counterexamples -/

/-- A rule whose pattern fails to compile (target: headers). -/
def wBadRule : RegexRule :=
  { id := ("r1"), description := ("bad pattern"), target := RuleTarget.headers,
    pattern := ("("), severity := Severity.issue, advice := ("fix the pattern") }

/-- A rule with a valid literal pattern matching the fixture headers. -/
def wGoodRule : RegexRule :=
  { id := ("r2"), description := ("router banner"), target := RuleTarget.headers,
    pattern := ("RouterOS"), severity := Severity.issue,
    advice := ("exposed firmware banner") }

/-- A captured HTTP probe with headers, status and body present. -/
def wProbe : HTTPProbe :=
  { status := some 200, headers := some ("Server: RouterOS"),
    body_snippet := some ("<html>login</html>") }

/-- A check result carrying the fixture probe. -/
def wChk1 : SnapshotCheck :=
  { name := ("Router UI"), port := 80, protocol := ("http"),
    tcp_connect := some ("open"), http := some wProbe, duration_ms := 5 }

/-- A second check result carrying the same probe under another name. -/
def wChk2 : SnapshotCheck :=
  { name := ("Alt UI"), port := 8080, protocol := ("http"),
    tcp_connect := some ("open"), http := some wProbe, duration_ms := 4 }

/-- A check result with no http sub-record. -/
def wNoHttpChk : SnapshotCheck :=
  { name := ("SSH"), port := 22, protocol := ("tcp"),
    tcp_connect := some ("open"), http := none, duration_ms := 2 }

/-- A snapshot with a single check. -/
def wSnap1 : Snapshot :=
  { target := ("192.168.0.1"), started_at := ("2026-01-01T00:00:00Z"),
    duration_ms := 10, checks := [wChk1] }

/-- A snapshot with two checks whose blobs are both non-empty. -/
def wSnap2 : Snapshot :=
  { target := ("192.168.0.1"), started_at := ("2026-01-01T00:00:00Z"),
    duration_ms := 12, checks := [wChk1, wChk2] }

/-- The finding `apply_rules` produces for `wGoodRule` on `wChk1`. -/
def wGoodFinding : Finding :=
  { rule_id := ("r2"), check := ("Router UI"), severity := ("issue"),
    advice := ("exposed firmware banner"), evidence := some ("RouterOS") }

/-- The configured check used by the scan fixtures. -/
def wPortCheck : PortCheck :=
  { name := ("Router UI"), port := 80, protocol := Protocol.http,
    severity := Severity.warning, advice := ("check admin UI") }

/-- Probe behaviour observed for the scan fixture check. -/
def wCheckEnv : CheckEnv :=
  { tcpEv := ConnectEvent.result 0,
    httpOutcome := HttpCallOutcome.returns
      (HttpEvent.response 200 [(("Server"), ("RouterOS 1.0"))]
        (some ("<html>login</html>")) ("")),
    durMs := 3 }

/-- A full scan environment with one http check. -/
def wScanEnv : ScanEnv :=
  { checksCfg := Except.ok { checks := [wPortCheck] },
    targetIp := Except.ok ("127.0.0.1"),
    checkEnvs := fun _ => wCheckEnv,
    startedAtIso := ("2026-01-01T00:00:00"),
    totalMs := 9 }

/-- The check result `scan_once` produces in the `wScanEnv` fixture. -/
def wRunChk : SnapshotCheck :=
  { name := ("Router UI"), port := 80, protocol := ("http"),
    tcp_connect := some ("open"),
    http := some { status := some 200, headers := some ("Server: RouterOS 1.0"),
                   body_snippet := some ("<html>login</html>") },
    duration_ms := 3 }

/-- The snapshot `scan_once` produces in the `wScanEnv` fixture. -/
def wSnapOut : Snapshot :=
  { target := ("127.0.0.1"), started_at := ("2026-01-01T00:00:00Z"),
    duration_ms := 9, checks := [wRunChk] }

/-- File-system oracle with no files at all. -/
def wfs1 : String → Option (Option YamlMap) := fun _ => none

/-- File-system oracle with a single empty-document YAML file. -/
def wfs2 : String → Option (Option YamlMap) :=
  fun p => if p = ("configs/rules.yaml") then some none else none

/-! ## Helper lemmas about the rule-engine loops -/

/-- The inner foldl of `apply_rules` appends exactly the filterMap of
the rule list to its accumulator. -/
theorem rules_foldl_eq (E : RegexEngine) (chk : SnapshotCheck) :
    ∀ (rs : List RegexRule) (acc : List Finding),
      rs.foldl
        (fun findings rule =>
          match findingForRule E chk rule with
          | some f => findings ++ [f]
          | none => findings)
        acc
        = acc ++ rs.filterMap (fun rule => findingForRule E chk rule)
  | [], acc => by simp
  | rule :: rs, acc => by
      cases h : findingForRule E chk rule with
      | none =>
          simp only [List.foldl_cons, h, List.filterMap_cons]
          exact rules_foldl_eq E chk rs acc
      | some f =>
          simp only [List.foldl_cons, h, List.filterMap_cons]
          rw [rules_foldl_eq E chk rs (acc ++ [f])]
          simp

/-- The outer foldl of `apply_rules` appends, check by check, the
per-check filterMap of the rules. -/
theorem checks_foldl_eq (E : RegexEngine) (cfg : RulesConfig) :
    ∀ (cs : List SnapshotCheck) (acc : List Finding),
      cs.foldl
        (fun findings chk =>
          cfg.rules.foldl
            (fun findings rule =>
              match findingForRule E chk rule with
              | some f => findings ++ [f]
              | none => findings)
            findings)
        acc
        = acc ++ cs.flatMap (fun chk => cfg.rules.filterMap (fun rule => findingForRule E chk rule))
  | [], acc => by simp
  | chk :: cs, acc => by
      simp only [List.foldl_cons]
      rw [rules_foldl_eq E chk cfg.rules acc, checks_foldl_eq E cfg cs]
      simp [List.flatMap_cons]

/-- `apply_rules` in closed form: concatenation over checks (outer) of
the per-check filterMap over rules (inner). -/
theorem apply_rules_eq_flatMap (E : RegexEngine) (snap : Snapshot) (cfg : RulesConfig) :
    apply_rules E snap cfg
      = snap.checks.flatMap (fun chk => cfg.rules.filterMap (fun rule => findingForRule E chk rule)) := by
  unfold apply_rules
  rw [checks_foldl_eq E cfg snap.checks []]
  simp

/-- Flattening option singletons is filterMap. -/
theorem flatMap_toList_eq_filterMap {α β : Type} (g : α → Option β) :
    ∀ l : List α, (l.flatMap fun a => (g a).toList) = l.filterMap g
  | [] => rfl
  | a :: l => by
      cases h : g a <;>
        simp [List.flatMap_cons, h, flatMap_toList_eq_filterMap g l, List.filterMap_cons]

/-- Pointwise equal functions give equal flatMaps. -/
theorem flatMap_congr_fun {α β : Type} (l : List α) (f g : α → List β)
    (h : ∀ a, f a = g a) : l.flatMap f = l.flatMap g := by
  induction l with
  | nil => rfl
  | cons a l ih => simp [List.flatMap_cons, h a, ih]

/-- Every finding produced for a (check, rule) pair carries that rule's
id: both emitting branches of the loop body use `rule.id`. -/
theorem findingForRule_rule_id (E : RegexEngine) (chk : SnapshotCheck) (rule : RegexRule)
    (f : Finding) (h : findingForRule E chk rule = some f) : f.rule_id = rule.id := by
  unfold findingForRule at h
  split at h
  · exact Option.noConfusion h
  · split at h
    · exact Option.noConfusion h
    · split at h
      · injection h with h
        subst h
        rfl
      · split at h
        · injection h with h
          subst h
          rfl
        · exact Option.noConfusion h

/-- A finding with evidence present comes from a successful compile and
a successful search, and the evidence is the matched span of the blob
truncated to 160 characters. -/
theorem findingForRule_evidence (E : RegexEngine) (chk : SnapshotCheck) (rule : RegexRule)
    (f : Finding) (ev : String) (h : findingForRule E chk rule = some f)
    (hev : f.evidence = some ev) :
    ∃ rx : CompiledRegex, ∃ sp : Nat × Nat, ∃ blob : String,
      E.compile rule.pattern = Except.ok rx ∧
      _blob_for chk rule.target.value = some blob ∧
      rx.search blob = some sp ∧
      ev = String.mk (((blob.toList.drop sp.1).take (sp.2 - sp.1)).take 160) := by
  unfold findingForRule at h
  split at h
  · exact Option.noConfusion h
  · rename_i blob hblob
    split at h
    · exact Option.noConfusion h
    · split at h
      · injection h with h
        subst h
        exact absurd hev (by simp)
      · rename_i rx hcomp
        split at h
        · rename_i sp hsearch
          injection h with h
          subst h
          refine ⟨rx, sp, blob, hcomp, hblob, hsearch, ?_⟩
          injection hev with hev
          exact hev.symm
        · exact Option.noConfusion h

/-- On a compile failure the loop body yields the warning finding (for a
non-falsy blob) and nothing otherwise. -/
theorem findingForRule_compile_error (E : RegexEngine) (chk : SnapshotCheck) (rule : RegexRule)
    (e : String) (hc : E.compile rule.pattern = Except.error e) :
    findingForRule E chk rule
      = match _blob_for chk rule.target.value with
        | none => none
        | some blob =>
            if blob = ("") then none
            else some { rule_id := rule.id, check := chk.name, severity := ("warning"),
                        advice := ("Invalid regex in rules.yaml: ") ++ e, evidence := none } := by
  unfold findingForRule
  cases _blob_for chk rule.target.value with
  | none => rfl
  | some blob =>
      by_cases hb : blob = ("")
      · simp [hb]
      · simp [hb, hc]

/-- A check without an http sub-record has no blob for any target, so
every rule is skipped on it. -/
theorem findingForRule_none_of_no_http (E : RegexEngine) (chk : SnapshotCheck)
    (rule : RegexRule) (h : chk.http = none) : findingForRule E chk rule = none := by
  have hb : _blob_for chk rule.target.value = none := by
    cases rule.target <;> simp [_blob_for, RuleTarget.value, h]
  simp [findingForRule, hb]

/-- The http field of a per-check result is populated only in the
http/https branch of the scan loop. -/
theorem runCheck_protocol_of_http (target : String) (chk : PortCheck) (env : CheckEnv)
    (h : (runCheck target chk env).http.isSome = true) :
    (runCheck target chk env).protocol = ("http")
      ∨ (runCheck target chk env).protocol = ("https") := by
  cases hp : chk.protocol <;> cases ho : env.httpOutcome <;>
    simp_all [runCheck, Protocol.value]

/-! ## Claim theorems -/

/-- C1 (amended): for every regex engine, snapshot, and rules
configuration, each occurrence of a rule whose pattern fails to compile
contributes, on every check whose blob for the rule's target is
non-empty, exactly one warning-severity finding — carrying the rule's
id, the check name, severity warning, advice describing the compile
error, and evidence absent — and nothing on checks whose blob is absent
or empty, while every other rule of the configuration is still
evaluated normally (evaluation continues with the next rule); the whole
computation is a total function (does not raise). -/
theorem invalid_pattern_one_warning_per_nonempty_check (E : RegexEngine) (snap : Snapshot)
    (cfg : RulesConfig) (rule : RegexRule) (e : String)
    (hc : E.compile rule.pattern = Except.error e) :
    apply_rules E snap cfg
      = snap.checks.flatMap (fun chk =>
          cfg.rules.flatMap (fun r =>
            if r = rule then
              match _blob_for chk rule.target.value with
              | none => []
              | some blob =>
                  if blob = ("") then []
                  else [{ rule_id := rule.id, check := chk.name, severity := ("warning"),
                          advice := ("Invalid regex in rules.yaml: ") ++ e,
                          evidence := none }]
            else (findingForRule E chk r).toList)) := by
  rw [apply_rules_eq_flatMap]
  refine flatMap_congr_fun snap.checks _ _ ?_
  intro chk
  rw [← flatMap_toList_eq_filterMap (fun r => findingForRule E chk r) cfg.rules]
  refine flatMap_congr_fun cfg.rules _ _ ?_
  intro r
  by_cases hr : r = rule
  · subst hr
    rw [if_pos rfl, findingForRule_compile_error E chk r e hc]
    cases hb : _blob_for chk r.target.value with
    | none => rfl
    | some blob =>
        by_cases he : blob = ("")
        · simp [he]
        · simp [he]
  · rw [if_neg hr]

/-- Witness for C1 (amended): the invalid-pattern rule inside a
two-rule configuration, against a one-check snapshot with non-empty
headers, produces exactly one warning finding for it, and the following
rule is still evaluated (its match finding appears as well). -/
theorem invalid_pattern_one_warning_witness :
    apply_rules pyEngine wSnap1 { rules := [wBadRule, wGoodRule] }
      = [{ rule_id := ("r1"), check := ("Router UI"), severity := ("warning"),
           advice :=
             ("Invalid regex in rules.yaml: missing ), unterminated subpattern at position 0"),
           evidence := none },
         { rule_id := ("r2"), check := ("Router UI"), severity := ("issue"),
           advice := ("exposed firmware banner"), evidence := some ("RouterOS") }] := by
  have h := invalid_pattern_one_warning_per_nonempty_check pyEngine wSnap1
    { rules := [wBadRule, wGoodRule] } wBadRule
    ("missing ), unterminated subpattern at position 0") rfl
  rw [h]
  decide

/-- Counterexample to C1 as stated: on a snapshot with two checks whose
header blobs are non-empty, the single invalid-pattern rule produces two
warning-severity findings, not exactly one. -/
theorem invalid_pattern_not_exactly_one_finding :
    ((apply_rules pyEngine wSnap2 { rules := [wBadRule] }).filter
        (fun f => f.severity == ("warning") && f.rule_id == ("r1"))).length = 2
    ∧ ((apply_rules pyEngine wSnap2 { rules := [wBadRule] }).filter
        (fun f => f.severity == ("warning") && f.rule_id == ("r1"))).length ≠ 1 := by
  constructor
  · decide
  · decide

/-- C2: for every scheme, host, port, and failure description,
`http_fetch` on a request exception returns (rather than raises) an
HTTPProbe whose status and headers are absent and whose body snippet is
the literal diagnostic text. -/
theorem http_fetch_request_error_probe (scheme host : String) (port : Nat) (desc : String) :
    http_fetch scheme host port (HttpEvent.requestException desc)
      = { status := none, headers := none,
          body_snippet := some ((("(request error: ") ++ desc) ++ (")")) } := rfl

/-- C3: the allowed-origins list of the API server contains exactly one
entry, the two intended origin URLs concatenated without a separator. -/
theorem allowed_origins_single_concatenated_entry :
    ALLOWED_ORIGINS.length = 1
    ∧ ALLOWED_ORIGINS = [("http://localhost:5173http://127.0.0.1:5173")] :=
  ⟨rfl, rfl⟩

/-- C4: every finding emitted by `apply_rules` whose evidence is present
got that evidence as the first 160 characters of the exact matched span
of some check's blob, and in particular the evidence never exceeds 160
characters. -/
theorem finding_evidence_first160_of_span (E : RegexEngine) (snap : Snapshot)
    (cfg : RulesConfig) :
    ∀ f ∈ apply_rules E snap cfg, ∀ ev : String, f.evidence = some ev →
      ev.length ≤ 160 ∧
      ∃ chk ∈ snap.checks, ∃ rule ∈ cfg.rules, ∃ rx : CompiledRegex, ∃ sp : Nat × Nat,
        ∃ blob : String,
          E.compile rule.pattern = Except.ok rx ∧
          _blob_for chk rule.target.value = some blob ∧
          rx.search blob = some sp ∧
          ev = String.mk (((blob.toList.drop sp.1).take (sp.2 - sp.1)).take 160) := by
  intro f hf ev hev
  rw [apply_rules_eq_flatMap, List.mem_flatMap] at hf
  obtain ⟨chk, hchk, hf⟩ := hf
  rw [List.mem_filterMap] at hf
  obtain ⟨rule, hrule, hfr⟩ := hf
  obtain ⟨rx, sp, blob, hcomp, hblob, hsearch, hev2⟩ :=
    findingForRule_evidence E chk rule f ev hfr hev
  refine ⟨?_, chk, hchk, rule, hrule, rx, sp, blob, hcomp, hblob, hsearch, hev2⟩
  rw [hev2]
  show (((blob.toList.drop sp.1).take (sp.2 - sp.1)).take 160).length ≤ 160
  rw [List.length_take]
  exact Nat.min_le_left _ _

/-- Witness for C4 at a concrete matching rule, check, and engine. -/
theorem finding_evidence_first160_witness :
    ("RouterOS").length ≤ 160 ∧
    ∃ chk ∈ wSnap1.checks, ∃ rule ∈ (RulesConfig.mk [wGoodRule]).rules,
      ∃ rx : CompiledRegex, ∃ sp : Nat × Nat, ∃ blob : String,
        pyEngine.compile rule.pattern = Except.ok rx ∧
        _blob_for chk rule.target.value = some blob ∧
        rx.search blob = some sp ∧
        ("RouterOS") = String.mk (((blob.toList.drop sp.1).take (sp.2 - sp.1)).take 160) :=
  finding_evidence_first160_of_span pyEngine wSnap1 { rules := [wGoodRule] } wGoodFinding
    (by decide) ("RouterOS") rfl

/-- C5: the findings list is exactly the concatenation, over checks in
snapshot order, of the per-check findings over rules in configured
order; each (check, rule) pair contributes independently, so nothing is
deduplicated or aggregated. -/
theorem apply_rules_check_major_rule_minor (E : RegexEngine) (snap : Snapshot)
    (cfg : RulesConfig) :
    apply_rules E snap cfg
      = snap.checks.flatMap
          (fun chk => cfg.rules.filterMap (fun rule => findingForRule E chk rule)) :=
  apply_rules_eq_flatMap E snap cfg

/-- C6: `tcp_connect` always yields one of the three classifications —
open when the connect returned zero, closed on any nonzero return code
or non-timeout exception, timeout on a timeout exception — it is a total
function of the observed connect outcome (never raises), and the socket
is closed on every path. -/
theorem tcp_connect_classification_and_socket_release (ev : ConnectEvent) :
    ((tcp_connect ev).1 = ("open") ∨ (tcp_connect ev).1 = ("closed")
        ∨ (tcp_connect ev).1 = ("timeout"))
    ∧ (tcp_connect ev).2 = SocketState.closed
    ∧ (∀ rc : Int, tcp_connect (ConnectEvent.result rc)
        = (if rc = 0 then ("open") else ("closed"), SocketState.closed))
    ∧ tcp_connect ConnectEvent.timeoutExc = (("timeout"), SocketState.closed)
    ∧ tcp_connect ConnectEvent.otherExc = (("closed"), SocketState.closed) := by
  refine ⟨?_, rfl, fun rc => rfl, rfl, rfl⟩
  cases ev with
  | result rc =>
      by_cases h : rc = 0
      · simp [tcp_connect, tcpTryExcept, h]
      · simp [tcp_connect, tcpTryExcept, h]
  | timeoutExc => simp [tcp_connect, tcpTryExcept]
  | otherExc => simp [tcp_connect, tcpTryExcept]

/-- C7: resolving a relative path whose file does not exist makes
`load_yaml_raw` fail with a not-found error whose message contains the
resolved path; a file whose YAML document is empty yields the empty
mapping, not an error. -/
theorem load_yaml_raw_notfound_and_empty_doc (fs : String → Option (Option YamlMap))
    (configDir rel : String) :
    (fs (configPath configDir rel) = none →
        load_yaml_raw fs configDir rel
            = Except.error (("Config not found: ") ++ configPath configDir rel)
          ∧ ∃ pre, (("Config not found: ") ++ configPath configDir rel)
              = pre ++ configPath configDir rel)
    ∧ (fs (configPath configDir rel) = some none →
        load_yaml_raw fs configDir rel = Except.ok ([], configPath configDir rel)) := by
  constructor
  · intro h
    refine ⟨?_, ("Config not found: "), rfl⟩
    simp [load_yaml_raw, h]
  · intro h
    simp [load_yaml_raw, h]

/-- Witness for C7: a file system with no files rejects a load with the
resolved-path message, and one with an empty rules.yaml yields the empty
mapping. -/
theorem load_yaml_raw_notfound_witness :
    load_yaml_raw wfs1 ("configs") ("checks.yaml")
        = Except.error ("Config not found: configs/checks.yaml")
    ∧ load_yaml_raw wfs2 ("configs") ("rules.yaml")
        = Except.ok ([], ("configs/rules.yaml")) := by
  have h1 := (load_yaml_raw_notfound_and_empty_doc wfs1 ("configs") ("checks.yaml")).1 rfl
  have h2 := (load_yaml_raw_notfound_and_empty_doc wfs2 ("configs") ("rules.yaml")).2 rfl
  exact ⟨h1.1, h2⟩

/-- C8: in every snapshot assembled by `scan_once`, a check result's
http field is present only if the check ran the http/https branch, i.e.
its recorded protocol is http or https; tcp checks (and the unreachable
unknown-protocol branch) leave http absent. -/
theorem scan_once_http_only_for_http_protocols (env : ScanEnv) (snap : Snapshot)
    (h : scan_once env = Except.ok snap) :
    ∀ c ∈ snap.checks, c.http.isSome = true →
      c.protocol = ("http") ∨ c.protocol = ("https") := by
  intro c hc hsome
  unfold scan_once at h
  split at h
  · exact Except.noConfusion h
  · split at h
    · exact Except.noConfusion h
    · rename_i cfg hcfg target htgt
      injection h with h
      subst h
      simp only [List.mem_map] at hc
      obtain ⟨ic, hic, rfl⟩ := hc
      exact runCheck_protocol_of_http target ic.2 (env.checkEnvs ic.1) hsome

set_option maxRecDepth 8192 in
/-- Witness for C8: the concrete one-check http scan environment. -/
theorem scan_once_http_only_witness :
    wRunChk.protocol = ("http") ∨ wRunChk.protocol = ("https") :=
  scan_once_http_only_for_http_protocols wScanEnv wSnapOut rfl wRunChk (by decide) rfl

/-- C9: a check whose http field is absent yields no finding for any
rule — all three targets draw their blob from the http probe, so the
blob is absent and every rule is skipped — hence a snapshot holding only
such a check produces no findings at all. -/
theorem apply_rules_skips_checks_without_http (E : RegexEngine) (cfg : RulesConfig)
    (tgt st : String) (dm : Nat) (chk : SnapshotCheck) (h : chk.http = none) :
    (∀ rule : RegexRule, findingForRule E chk rule = none)
    ∧ apply_rules E { target := tgt, started_at := st, duration_ms := dm, checks := [chk] } cfg
        = [] := by
  have hnone := fun rule => findingForRule_none_of_no_http E chk rule h
  refine ⟨hnone, ?_⟩
  rw [apply_rules_eq_flatMap]
  simp [hnone]

/-- Witness for C9: the tcp check with no http sub-record yields no
finding for the matching rule and an empty findings list. -/
theorem apply_rules_skips_checks_without_http_witness :
    findingForRule pyEngine wNoHttpChk wGoodRule = none
    ∧ apply_rules pyEngine
        { target := ("192.168.0.1"), started_at := ("2026-01-01T00:00:00Z"),
          duration_ms := 2, checks := [wNoHttpChk] }
        { rules := [wGoodRule] } = [] := by
  have h := apply_rules_skips_checks_without_http pyEngine { rules := [wGoodRule] }
    ("192.168.0.1") ("2026-01-01T00:00:00Z") 2 wNoHttpChk rfl
  exact ⟨h.1 wGoodRule, h.2⟩

/-- C10: every finding `apply_rules` outputs carries the id of some rule
of the configuration — the invalid-pattern branch reads the required
`id` field of the rule, so the placeholder id is never produced for a
validated configuration. -/
theorem apply_rules_rule_id_from_config (E : RegexEngine) (snap : Snapshot)
    (cfg : RulesConfig) :
    ∀ f ∈ apply_rules E snap cfg, ∃ rule ∈ cfg.rules, f.rule_id = rule.id := by
  intro f hf
  rw [apply_rules_eq_flatMap, List.mem_flatMap] at hf
  obtain ⟨chk, _, hf⟩ := hf
  rw [List.mem_filterMap] at hf
  obtain ⟨rule, hrule, hfr⟩ := hf
  exact ⟨rule, hrule, findingForRule_rule_id E chk rule f hfr⟩

/-- Witness for C10 at the concrete matching rule and check. -/
theorem apply_rules_rule_id_from_config_witness :
    ∃ rule ∈ (RulesConfig.mk [wGoodRule]).rules, wGoodFinding.rule_id = rule.id :=
  apply_rules_rule_id_from_config pyEngine wSnap1 { rules := [wGoodRule] } wGoodFinding
    (by decide)
